import Mathlib

/-!
Verification development for the `mre_scene` server: a shallow embedding of
the replication / room-based interest-management logic of `src/server.rs`
(systems `add_replicate`, `create_save_scene`, `spawn_scene`) and the protocol
components of `src/shared.rs` (`ComponentA`, `CarrierId`), together with
theorems about the embedded systems.

Modelling conventions:
- `ClientId` (an opaque u64 wrapper in the network library; `to_bits` is the
  identity on the underlying integer) is modelled as `Nat`; so are `RoomId`
  and Bevy `Entity` ids.
- An ECS entity is a record of the components the examined systems touch:
  the payload `ComponentA(usize)`, the `CarrierId(ClientId)`, the optional
  `Replicate` bundle, a `Name` label, and a counter of spawned child entities
  carrying `ComponentA(0)` (each `with_child(ComponentA(0))` call spawns one
  fresh child; only their number and value matter to the examined claims).
- The room manager (a map `RoomId -> Room`, rooms with hash-set members) is a
  total function from room ids to rooms, absent rooms being empty; member
  sets are `Finset`s, matching the idempotent hash-set inserts of the source.
- Bevy `Local<bool>` state is a field of the explicit system state threaded
  through runs; `EventReader` input is the list of pending connect events'
  client ids.
-/

namespace MreScene

/-- Network-wide replication scope (`NetworkTarget`); the source only ever
uses the `All` variant. -/
inductive NetworkTarget where
  | All
deriving DecidableEq, Repr

/-- Relevance mode of a replicated entity (`NetworkRelevanceMode`):
unconditional broadcast (`All`, the `Replicate` default) or room-gated
interest management (`InterestManagement`). -/
inductive NetworkRelevanceMode where
  | All
  | InterestManagement
deriving DecidableEq, Repr

/-- Per-entity replication target record (`ReplicationTarget`). -/
structure ReplicationTarget where
  target : NetworkTarget
deriving DecidableEq, Repr

/-- The `Replicate` bundle fields the source sets: the replication target and
the relevance mode (the remaining fields keep their defaults and are not
examined by any claim). -/
structure Replicate where
  target : ReplicationTarget
  relevance_mode : NetworkRelevanceMode
deriving DecidableEq, Repr

/-- The `Replicate` value built on the interest-managed branch of
`add_replicate`: target `All`, relevance `InterestManagement`. -/
def replicateInterest : Replicate :=
  { target := { target := NetworkTarget.All }
    relevance_mode := NetworkRelevanceMode.InterestManagement }

/-- The `Replicate` value built on the other branch of `add_replicate`:
target `All` with the default relevance mode (broadcast to all). -/
def replicateBroadcast : Replicate :=
  { target := { target := NetworkTarget.All }
    relevance_mode := NetworkRelevanceMode.All }

/-- A simulation entity as seen by the examined systems: its id and the
components they read or write.  `zeroChildren` counts the child entities
spawned under it carrying `ComponentA(0)`. -/
structure SEntity where
  eid : Nat
  componentA : Option Nat
  carrierId : Option Nat
  replicate : Option Replicate
  name : Option String
  zeroChildren : Nat
deriving DecidableEq, Repr

/-- A room of the room manager: hash-sets of member clients and member
entities, modelled as `Finset`s. -/
structure Room where
  clients : Finset Nat
  entities : Finset Nat
deriving DecidableEq

/-- The empty room (the state of any room id never added to). -/
def Room.empty : Room := { clients := ∅, entities := ∅ }

/-- The room manager (`RoomManager`): a total map from room ids to rooms,
where an id never touched maps to the empty room. -/
structure RoomManager where
  rooms : Nat → Room

/-- The room manager with no rooms. -/
def RoomManager.empty : RoomManager := ⟨fun _ => Room.empty⟩

/-- Embeds `rooms.add_client(client_id, room_id)`: insert the client into
the room's client set (creating the room if absent; idempotent). -/
def RoomManager.add_client (rm : RoomManager) (client_id room_id : Nat) :
    RoomManager :=
  ⟨fun id =>
    if id = room_id then
      { rm.rooms room_id with clients := insert client_id (rm.rooms room_id).clients }
    else rm.rooms id⟩

/-- Embeds `rooms.add_entity(entity, room_id)`: insert the entity into the
room's entity set (creating the room if absent; idempotent). -/
def RoomManager.add_entity (rm : RoomManager) (entity room_id : Nat) :
    RoomManager :=
  ⟨fun id =>
    if id = room_id then
      { rm.rooms room_id with entities := insert entity (rm.rooms room_id).entities }
    else rm.rooms id⟩

/-- The server-side state the `add_replicate` system reads and writes: the
entity registry, the room manager resource, and the `Local<bool>`
`lobby_yes_or_no` flag. -/
structure ServerState where
  entities : List SEntity
  rooms : RoomManager
  lobby_yes_or_no : Bool

/-- The query `Query<(Entity, &CarrierId), With<ComponentA>>`: the entities
carrying both a `ComponentA` and a `CarrierId`, fetched as
(entity id, carrier client id) pairs. -/
def queryAll (es : List SEntity) : List (Nat × Nat) :=
  es.filterMap fun e =>
    match e.componentA, e.carrierId with
    | some _, some c => some (e.eid, c)
    | _, _ => none

/-- The body of `add_replicate`'s inner loop for one `(entity, carrier_id)`
query row: set the local flag to `true`, then branch on it.  On the (always
taken) interest branch, derive `room_id` from the carrier client id
(`RoomId(client_id.to_bits())`), add that client and the entity to the room,
insert `replicateInterest` on the entity and spawn a `ComponentA(0)` child;
on the (dead) other branch, insert `replicateBroadcast` only. -/
def processEntity (st : ServerState) (eid c : Nat) : ServerState :=
  let st1 : ServerState := { st with lobby_yes_or_no := true }
  if st1.lobby_yes_or_no then
    let room_id := c
    { st1 with
      rooms := (st1.rooms.add_client c room_id).add_entity eid room_id
      entities := st1.entities.map fun e =>
        if e.eid = eid then
          { e with replicate := some replicateInterest
                   zeroChildren := e.zeroChildren + 1 }
        else e }
  else
    { st1 with
      entities := st1.entities.map fun e =>
        if e.eid = eid then { e with replicate := some replicateBroadcast }
        else e }

/-- One run of the `add_replicate` system: for each pending connect event
(whose payload is never read), process every row of the query, which Bevy
evaluates against the world as it was when the system ran (commands are
deferred, and no command alters `ComponentA`/`CarrierId`, so the row set is
fixed for the whole run). -/
def add_replicate (st : ServerState) (events : List Nat) : ServerState :=
  let q := queryAll st.entities
  events.foldl (fun acc _event => q.foldl (fun acc2 p => processEntity acc2 p.1 p.2) acc) st

/-! ### Snapshot codec (`create_save_scene` / `spawn_scene`)

The scene built in `create_save_scene` lives in a fresh `World` holding one
entity with `ComponentA(2)`, `CarrierId(client_id)` and a `Name`; we model a
scene as a list of component bundles.  The scene serializer/deserializer and
the asset loader are external engine code, so they are modelled from the
spec's contract for the Snapshot Codec. -/

/-- One component bundle of a dynamic scene: the optional `ComponentA`
payload, `CarrierId` and `Name` values. -/
structure Bundle where
  componentA : Option Nat
  carrierId : Option Nat
  name : Option String
deriving DecidableEq, Repr

/-- The component-kind names present in a bundle (the keys the serializer
must resolve in the type registry). -/
def bundleKinds (b : Bundle) : List String :=
  (if b.componentA.isSome then ["ComponentA"] else [])
    ++ (if b.carrierId.isSome then ["CarrierId"] else [])
    ++ (if b.name.isSome then ["Name"] else [])

/-- The type registry of the running app: `SharedPlugin` registers
`ComponentA` and `CarrierId` (`register_type`), and the engine's default
plugins register `Name`. -/
def appTypeRegistry : List String := ["ComponentA", "CarrierId", "Name"]

/-- The transient scene world built in `create_save_scene` for a connect
event of client `client_id`: exactly one entity, spawned with
`ComponentA(2)`, `CarrierId(client_id)` and `Name("Replicated entity")`. -/
def sceneWorldFor (client_id : Nat) : List Bundle :=
  [{ componentA := some 2, carrierId := some client_id,
     name := some "Replicated entity" }]

/-- Modelled from the spec: the serialized byte stream of the Snapshot
Codec, a flat sequence of symbols (one `Nat` per digit, marker, or
character code). -/
def Bytes : Type := List Nat

/-- Modelled from the spec: encode a number as its decimal digit string,
length-prefixed. -/
def encNat (n : Nat) : List Nat :=
  (Nat.digits 10 n).length :: Nat.digits 10 n

/-- Modelled from the spec: decode a length-prefixed number, returning it
with the remaining stream. -/
def decNat (bs : List Nat) : Option (Nat × List Nat) :=
  match bs with
  | [] => none
  | len :: rest =>
    if len ≤ rest.length then
      some (Nat.ofDigits 10 (rest.take len), rest.drop len)
    else none

/-- Modelled from the spec: encode a string as its length-prefixed character
codes. -/
def encStr (s : String) : List Nat :=
  encNat s.data.length ++ s.data.map Char.toNat

/-- Modelled from the spec: decode a length-prefixed string. -/
def decStr (bs : List Nat) : Option (String × List Nat) :=
  (decNat bs).bind fun lr =>
    if lr.1 ≤ lr.2.length then
      some (String.mk ((lr.2.take lr.1).map Char.ofNat), lr.2.drop lr.1)
    else none

/-- Modelled from the spec: encode an optional field with a presence
marker. -/
def encOpt (enc : α → List Nat) : Option α → List Nat
  | none => [0]
  | some a => 1 :: enc a

/-- Modelled from the spec: decode an optional field. -/
def decOpt (dec : List Nat → Option (α × List Nat)) (bs : List Nat) :
    Option (Option α × List Nat) :=
  match bs with
  | 0 :: rest => some (none, rest)
  | 1 :: rest => (dec rest).bind fun ar => some (some ar.1, ar.2)
  | _ => none

/-- Modelled from the spec: encode one component bundle, field by field. -/
def encBundle (b : Bundle) : List Nat :=
  encOpt encNat b.componentA ++ (encOpt encNat b.carrierId ++ encOpt encStr b.name)

/-- Modelled from the spec: decode one component bundle. -/
def decBundle (bs : List Nat) : Option (Bundle × List Nat) :=
  (decOpt decNat bs).bind fun ar =>
    (decOpt decNat ar.2).bind fun cr =>
      (decOpt decStr cr.2).bind fun nr =>
        some ({ componentA := ar.1, carrierId := cr.1, name := nr.1 }, nr.2)

/-- Modelled from the spec: decode `n` consecutive bundles. -/
def decBundles : Nat → List Nat → Option (List Bundle × List Nat)
  | 0, bs => some ([], bs)
  | n + 1, bs =>
    (decBundle bs).bind fun br =>
      (decBundles n br.2).bind fun lr => some (br.1 :: lr.1, lr.2)

/-- Modelled from the spec: `serialize(Snapshot) -> bytes`, the
`DynamicScene::serialize` contract — deterministic, failing (with
`SerializationError`, i.e. `none`) when some present component kind is not
in the type registry, otherwise the length-prefixed bundle encoding. -/
def serializeScene (registry : List String) (scene : List Bundle) :
    Option (List Nat) :=
  if (scene.flatMap bundleKinds).all (fun k => registry.contains k) then
    some (scene.length :: scene.flatMap encBundle)
  else none

/-- Modelled from the spec: decode a serialized scene back into its bundle
list (`DecodeError` is `none`). -/
def decodeScene (bs : List Nat) : Option (List Bundle) :=
  match bs with
  | [] => none
  | n :: rest =>
    (decBundles n rest).bind fun lr =>
      if lr.2 = [] then some lr.1 else none

/-- The durable storage location (`assets/scene.ron`): its contents after a
write, `none` when absent or the write failed. -/
structure Storage where
  contents : Option (List Nat)

/-- Modelled from the spec: `persist(bytes, location)` writes the bytes to
the storage location. -/
def persist (bytes : List Nat) : Storage := ⟨some bytes⟩

/-- Outcome of loading the scene asset at startup (`spawn_scene` loading
`scene.ron`): an I/O failure, a decode failure, or the decoded snapshot. -/
inductive LoadResult where
  | ioError
  | decodeError
  | ok (scene : List Bundle)
deriving DecidableEq, Repr

/-- Modelled from the spec: `load(location) -> Snapshot`, reading the
storage and decoding its contents. -/
def load (st : Storage) : LoadResult :=
  match st.contents with
  | none => LoadResult.ioError
  | some bs =>
    match decodeScene bs with
    | none => LoadResult.decodeError
    | some scene => LoadResult.ok scene

/-- Modelled from the spec: `instantiate(Snapshot)` spawns one fresh live
entity per bundle (fresh ids from `base`), carrying exactly the bundle's
component values. -/
def instantiate (scene : List Bundle) (base : Nat) : List SEntity :=
  scene.enum.map fun bi =>
    { eid := base + bi.1, componentA := bi.2.componentA,
      carrierId := bi.2.carrierId, replicate := none,
      name := bi.2.name, zeroChildren := 0 }

/-- The component values of a live entity, as a bundle (for comparing
instantiated entities with a snapshot's bundles). -/
def SEntity.toBundle (e : SEntity) : Bundle :=
  { componentA := e.componentA, carrierId := e.carrierId, name := e.name }

/-! ### The `create_save_scene` system -/

/-- A write failure of the background persist task (`IoError`). -/
inductive IoError where
  | writeFailed
deriving DecidableEq, Repr

/-- What the reader of the server's diagnostics can observe of the detached
persist task: a successful write, a logged error, or a panic. -/
inductive TaskOutcome where
  | wrote
  | loggedError (e : IoError)
  | panicked
deriving DecidableEq, Repr

/-- The async closure spawned (detached) on the I/O task pool:
`File::create(..).and_then(|f| f.write(..)).expect("Error while writing scene to file")`
— on any write failure it panics via `expect`; it never logs the error. -/
def backgroundTaskBody (writeResult : Except IoError Nat) : TaskOutcome :=
  match writeResult with
  | Except.ok _ => TaskOutcome.wrote
  | Except.error _ => TaskOutcome.panicked

/-- Outcome of one run of the `create_save_scene` system on the tick
schedule: either the list of `(client_id, serialized bytes)` jobs handed to
the detached background task, or a panic of the system itself (the
`.unwrap()` on `scene.serialize`). -/
inductive TickOutcome where
  | ok (jobs : List (Nat × List Nat))
  | panicked
deriving DecidableEq, Repr

/-- One run of `create_save_scene`: for each pending connect event, build
the transient scene world for that client, serialize it against the app
type registry and `.unwrap()` (panicking the system on failure), then hand
the bytes to a detached background write task.  The system has no mutable
access to the live world, which is returned unchanged. -/
def create_save_scene (live : ServerState) (registry : List String)
    (events : List Nat) : ServerState × TickOutcome :=
  (live,
    match events.mapM
      (fun cid => (serializeScene registry (sceneWorldFor cid)).map
        fun bs => (cid, bs)) with
    | some jobs => TickOutcome.ok jobs
    | none => TickOutcome.panicked)

/-! ### Concrete states for the spec's connect scenario -/

/-- The spec's scenario start: one entity `E` (id 0) with payload
`ComponentA(2)` and carrier client `0` ("A"), empty room table, flag still
unset. -/
def scenarioStart : ServerState :=
  { entities := [{ eid := 0, componentA := some 2, carrierId := some 0,
                   replicate := none, name := none, zeroChildren := 0 }],
    rooms := RoomManager.empty, lobby_yes_or_no := false }

/-- The scenario state after client `0` ("A") connects and then client `1`
("B") connects, `E` still the only payload-bearing entity. -/
def scenarioAfterB : ServerState :=
  add_replicate (add_replicate scenarioStart [0]) [1]

/-! ### Helper lemmas -/

/-- Unfolding of `processEntity`: because the source assigns
`*lobby_yes_or_no = true` before testing the flag, every processed query row
takes the interest-managed branch — the room keyed by the carrier id gains
the carrier client and the entity, the entity receives `replicateInterest`
and a fresh `ComponentA(0)` child, and the flag ends `true`. -/
theorem processEntity_spec (st : ServerState) (eid c : Nat) :
    processEntity st eid c =
      { entities := st.entities.map fun e =>
          if e.eid = eid then
            { e with replicate := some replicateInterest
                     zeroChildren := e.zeroChildren + 1 }
          else e
        rooms := (st.rooms.add_client c c).add_entity eid c
        lobby_yes_or_no := true } := rfl

/-- A predicate preserved by each step of a fold is preserved by the whole
fold. -/
theorem foldl_pres {α β : Type _} (P : α → Prop) (f : α → β → α)
    (h : ∀ a b, P a → P (f a b)) :
    ∀ (l : List β) (a : α), P a → P (l.foldl f a) := by
  intro l
  induction l with
  | nil => intro a ha; exact ha
  | cons x xs ih => intro a ha; exact ih _ (h a x ha)

/-- A fold whose step ignores the list elements only depends on the list's
length: renaming the elements does not change the result. -/
theorem foldl_const_map {α β γ : Type _} (g : α → α) (f : β → γ) :
    ∀ (l : List β) (a : α),
      (l.map f).foldl (fun acc _ => g acc) a = l.foldl (fun acc _ => g acc) a := by
  intro l
  induction l with
  | nil => intro a; rfl
  | cons x xs ih => intro a; exact ih (g a)

/-- The query row of an entity carrying both components. -/
theorem queryAll_singleton (e : SEntity) (a c : Nat)
    (ha : e.componentA = some a) (hc : e.carrierId = some c) :
    queryAll [e] = [(e.eid, c)] := by
  simp [queryAll, ha, hc]

/-! ### Claim theorems -/

/-- C9: the mutations of `add_replicate` are independent of the connecting
client's identity — the event payload is never read, so renaming every
pending event's client id (`List.map f`), and in particular replacing a
single connect event's client id by any other, yields exactly the same room
additions and component insertions (the same final server state). -/
theorem add_replicate_ignores_event_identity (st : ServerState)
    (evs : List Nat) (f : Nat → Nat) (e1 e2 : Nat) :
    add_replicate st (evs.map f) = add_replicate st evs
    ∧ add_replicate st [e1] = add_replicate st [e2] := by
  constructor
  · exact foldl_const_map _ f evs st
  · rfl

/-- C4 (amended): on every connect event the resolver scans exactly the
entities carrying both the payload component `ComponentA` and a
`CarrierId` — the whole registry, not just newly created entities, but
payload-bearing entities without a carrier id are excluded from the query. -/
theorem queryAll_mem_iff (es : List SEntity) (p : Nat × Nat) :
    p ∈ queryAll es ↔
      ∃ e ∈ es, e.componentA.isSome ∧ e.carrierId = some p.2 ∧ e.eid = p.1 := by
  constructor
  · intro h
    rcases List.mem_filterMap.mp h with ⟨e, he, hf⟩
    refine ⟨e, he, ?_⟩
    rcases ha : e.componentA with _ | a <;> rcases hc : e.carrierId with _ | c <;>
      simp [ha, hc] at hf ⊢
    exact ⟨congrArg Prod.snd hf, congrArg Prod.fst hf⟩
  · rintro ⟨e, he, hsome, hc, heid⟩
    refine List.mem_filterMap.mpr ⟨e, he, ?_⟩
    rcases ha : e.componentA with _ | a
    · rw [ha] at hsome; simp at hsome
    · simp [ha, hc, heid]

/-- C4 (counterexample): an entity carrying the payload `ComponentA(2)` but
no `CarrierId` is not scanned at all — a connect event leaves it without any
`Replicate` component, contradicting "every entity that has the payload
component is included in the scan, whether or not it also carries a
carrier/owner identifier". -/
theorem queryAll_skips_carrierless :
    queryAll [{ eid := 0, componentA := some 2, carrierId := none,
                replicate := none, name := none, zeroChildren := 0 }] = []
    ∧ (add_replicate
        { entities := [{ eid := 0, componentA := some 2, carrierId := none,
                         replicate := none, name := none, zeroChildren := 0 }],
          rooms := RoomManager.empty, lobby_yes_or_no := false } [3]).entities
      = [{ eid := 0, componentA := some 2, carrierId := none,
           replicate := none, name := none, zeroChildren := 0 }] := by
  constructor <;> rfl

/-- C7: for each connect event the snapshot is built in a transient world
holding exactly one component bundle — payload `ComponentA(2)`, carrier id
equal to the connecting client's identity, and the display label — and the
`create_save_scene` system leaves the live server state (entity registry and
room table) unchanged; its outcome never reads the live state at all. -/
theorem create_save_scene_isolated (live live2 : ServerState)
    (registry : List String) (events : List Nat) (cid : Nat) :
    sceneWorldFor cid
      = [{ componentA := some 2, carrierId := some cid,
           name := some "Replicated entity" }]
    ∧ (create_save_scene live registry events).1 = live
    ∧ (create_save_scene live registry events).2
        = (create_save_scene live2 registry events).2 :=
  ⟨rfl, rfl, rfl⟩

/-- C6 (amended): the persist step is handed to a detached background task
off the tick loop (never awaited — the tick system's outcome carries only
the submitted jobs and its state is returned unchanged), but a write failure
makes that background task panic through `expect` rather than log an
`IoError`. -/
theorem background_write_failure_panics (e : IoError) (n : Nat)
    (live : ServerState) (registry : List String) (events : List Nat) :
    backgroundTaskBody (Except.error e) = TaskOutcome.panicked
    ∧ backgroundTaskBody (Except.ok n) = TaskOutcome.wrote
    ∧ (create_save_scene live registry events).1 = live :=
  ⟨rfl, rfl, rfl⟩

/-- C6 (counterexample): a failed write makes the detached task panic; it
does not produce the logged-`IoError` observation the claim describes. -/
theorem background_write_failure_not_logged :
    backgroundTaskBody (Except.error IoError.writeFailed) = TaskOutcome.panicked
    ∧ TaskOutcome.panicked ≠ TaskOutcome.loggedError IoError.writeFailed := by
  exact ⟨rfl, by decide⟩

/-- C1 (amended): for every connect event and every scanned entity (payload
plus carrier), the resolver derives the room id from the *entity's carrier
identifier* — not the connecting client's identity — and registers the
carrier client together with the entity into that room; every other room id
(in particular one keyed to a connecting client that is not the carrier) is
left untouched. -/
theorem add_replicate_rooms_keyed_by_carrier
    (rm : RoomManager) (flag : Bool) (e : SEntity) (ev a c r : Nat)
    (ha : e.componentA = some a) (hc : e.carrierId = some c) :
    ((add_replicate ⟨[e], rm, flag⟩ [ev]).rooms.rooms c).clients
        = insert c ((rm.rooms c).clients)
    ∧ ((add_replicate ⟨[e], rm, flag⟩ [ev]).rooms.rooms c).entities
        = insert e.eid ((rm.rooms c).entities)
    ∧ (r ≠ c → (add_replicate ⟨[e], rm, flag⟩ [ev]).rooms.rooms r = rm.rooms r) := by
  have hq : queryAll [e] = [(e.eid, c)] := queryAll_singleton e a c ha hc
  have hrw : add_replicate ⟨[e], rm, flag⟩ [ev]
      = processEntity ⟨[e], rm, flag⟩ e.eid c := by
    simp only [add_replicate, hq, List.foldl_cons, List.foldl_nil]
  rw [hrw, processEntity_spec]
  refine ⟨?_, ?_, fun hr => ?_⟩
  · simp [RoomManager.add_client, RoomManager.add_entity]
  · simp [RoomManager.add_client, RoomManager.add_entity]
  · simp [RoomManager.add_client, RoomManager.add_entity, hr]

/-- C1 (witness): instantiating the amended claim at a concrete input —
entity id 0 with carrier client 5, connecting client 7. -/
theorem add_replicate_rooms_keyed_by_carrier_witness :
    ((add_replicate ⟨[{ eid := 0, componentA := some 2, carrierId := some 5,
                        replicate := none, name := none, zeroChildren := 0 }],
                     RoomManager.empty, false⟩ [7]).rooms.rooms 5).clients
        = insert 5 ((RoomManager.empty.rooms 5).clients)
    ∧ ((add_replicate ⟨[{ eid := 0, componentA := some 2, carrierId := some 5,
                          replicate := none, name := none, zeroChildren := 0 }],
                       RoomManager.empty, false⟩ [7]).rooms.rooms 5).entities
        = insert 0 ((RoomManager.empty.rooms 5).entities)
    ∧ (add_replicate ⟨[{ eid := 0, componentA := some 2, carrierId := some 5,
                         replicate := none, name := none, zeroChildren := 0 }],
                      RoomManager.empty, false⟩ [7]).rooms.rooms 7
        = RoomManager.empty.rooms 7 :=
  ⟨(add_replicate_rooms_keyed_by_carrier RoomManager.empty false _ 7 2 5 7 rfl rfl).1,
   (add_replicate_rooms_keyed_by_carrier RoomManager.empty false _ 7 2 5 7 rfl rfl).2.1,
   (add_replicate_rooms_keyed_by_carrier RoomManager.empty false _ 7 2 5 7 rfl rfl).2.2
     (by decide)⟩

/-- C1 (counterexample): in the spec's scenario — client A (= 0) connects
while `E` (carrier A) is the only payload-bearing entity, then client B
(= 1) connects — the room table does *not* gain a second room keyed to B:
the room keyed to 1 stays empty, and only the room keyed to the carrier 0
holds `E` (and client 0). -/
theorem no_second_room_for_connecting_client :
    (scenarioAfterB.rooms.rooms 1) = Room.empty
    ∧ (scenarioAfterB.rooms.rooms 0).clients = {0}
    ∧ (scenarioAfterB.rooms.rooms 0).entities = {0} := by
  refine ⟨?_, ?_, ?_⟩ <;> decide

/-- C2 (amended): the local sticky flag, once true, stays true across any
further `add_replicate` runs; but the broadcast-only branch is unreachable —
the flag is assigned `true` before it is tested, so *every* processed entity
(including the first entity of the very first connect event, processed from
a flag-false state) takes the interest-managed path. -/
theorem lobby_flag_sticky_and_broadcast_branch_dead
    (st : ServerState) (evs : List Nat) (eid c : Nat) :
    (st.lobby_yes_or_no = true → (add_replicate st evs).lobby_yes_or_no = true)
    ∧ processEntity st eid c =
      { entities := st.entities.map fun e =>
          if e.eid = eid then
            { e with replicate := some replicateInterest
                     zeroChildren := e.zeroChildren + 1 }
          else e
        rooms := (st.rooms.add_client c c).add_entity eid c
        lobby_yes_or_no := true } := by
  constructor
  · intro h
    have hstep : ∀ (a2 : ServerState) (p : Nat × Nat),
        a2.lobby_yes_or_no = true → (processEntity a2 p.1 p.2).lobby_yes_or_no = true := by
      intro a2 p _
      rw [processEntity_spec]
    exact foldl_pres (fun s => s.lobby_yes_or_no = true)
      (fun acc _ => (queryAll st.entities).foldl
        (fun acc2 p => processEntity acc2 p.1 p.2) acc)
      (fun a b hab => foldl_pres (fun s => s.lobby_yes_or_no = true)
        (fun acc2 p => processEntity acc2 p.1 p.2) hstep _ a hab) evs st h
  · exact processEntity_spec st eid c

/-- C2 (witness): instantiating the amended claim at a concrete input with
the flag already true. -/
theorem lobby_flag_sticky_witness :
    (add_replicate ⟨[], RoomManager.empty, true⟩ [3]).lobby_yes_or_no = true
    ∧ processEntity ⟨[], RoomManager.empty, true⟩ 0 0 =
      { entities := ([] : List SEntity).map fun e =>
          if e.eid = 0 then
            { e with replicate := some replicateInterest
                     zeroChildren := e.zeroChildren + 1 }
          else e
        rooms := (RoomManager.empty.add_client 0 0).add_entity 0 0
        lobby_yes_or_no := true } :=
  ⟨(lobby_flag_sticky_and_broadcast_branch_dead ⟨[], RoomManager.empty, true⟩ [3] 0 0).1 rfl,
   (lobby_flag_sticky_and_broadcast_branch_dead ⟨[], RoomManager.empty, true⟩ [3] 0 0).2⟩

/-- C2 (counterexample): an entity processed from a flag-false state (the
only state the claim's broadcast case could apply to) is *not* given the
broadcast-all/no-interest treatment: it is room-registered and receives the
interest-managed `Replicate`, with a `ComponentA(0)` child. -/
theorem flag_false_entity_still_interest_managed :
    (⟨[{ eid := 0, componentA := some 2, carrierId := some 5, replicate := none,
         name := none, zeroChildren := 0 }], RoomManager.empty, false⟩
        : ServerState).lobby_yes_or_no = false
    ∧ ((add_replicate ⟨[{ eid := 0, componentA := some 2, carrierId := some 5,
                          replicate := none, name := none, zeroChildren := 0 }],
                       RoomManager.empty, false⟩ [7]).rooms.rooms 5).entities = {0}
    ∧ (add_replicate ⟨[{ eid := 0, componentA := some 2, carrierId := some 5,
                         replicate := none, name := none, zeroChildren := 0 }],
                      RoomManager.empty, false⟩ [7]).entities
        = [{ eid := 0, componentA := some 2, carrierId := some 5,
             replicate := some replicateInterest, name := none, zeroChildren := 1 }] := by
  refine ⟨rfl, ?_, ?_⟩ <;> decide

/-- C3: every query row processed on the interest-managed path has its
entity's replication target set to broadcast-all scope
(`NetworkTarget.All`) with interest-managed relevance
(`NetworkRelevanceMode.InterestManagement`) and gains a freshly spawned
child carrying the baseline payload `ComponentA(0)`. -/
theorem processEntity_sets_target_and_child (st : ServerState) (eid c : Nat)
    (e : SEntity) (he : e ∈ st.entities) (heid : e.eid = eid) :
    { e with replicate := some replicateInterest
             zeroChildren := e.zeroChildren + 1 }
      ∈ (processEntity st eid c).entities := by
  rw [processEntity_spec]
  refine List.mem_map.mpr ⟨e, he, ?_⟩
  simp [heid]

/-- C3 (witness): instantiating the claim at a concrete input. -/
theorem processEntity_sets_target_and_child_witness :
    ({ eid := 4, componentA := some 9, carrierId := some 6,
       replicate := some replicateInterest, name := none, zeroChildren := 1 } : SEntity)
      ∈ (processEntity ⟨[{ eid := 4, componentA := some 9, carrierId := some 6,
                           replicate := none, name := none, zeroChildren := 0 }],
                        RoomManager.empty, false⟩ 4 6).entities :=
  processEntity_sets_target_and_child _ 4 6
    { eid := 4, componentA := some 9, carrierId := some 6,
      replicate := none, name := none, zeroChildren := 0 }
    (List.mem_singleton.mpr rfl) rfl

/-- Folding `processEntity` for a fixed query row over a singleton registry:
each step adds exactly one `ComponentA(0)` child and preserves the entity's
id, payload and carrier. -/
theorem foldl_process_singleton (eid0 c : Nat) (evs : List Nat) :
    ∀ (e : SEntity) (rm : RoomManager) (flag : Bool), e.eid = eid0 →
    ∃ e' rm' flag',
      evs.foldl (fun acc _ => processEntity acc eid0 c) ⟨[e], rm, flag⟩
        = ⟨[e'], rm', flag'⟩
      ∧ e'.zeroChildren = e.zeroChildren + evs.length
      ∧ e'.componentA = e.componentA ∧ e'.carrierId = e.carrierId
      ∧ e'.eid = e.eid := by
  induction evs with
  | nil =>
    intro e rm flag _
    exact ⟨e, rm, flag, rfl, rfl, rfl, rfl, rfl⟩
  | cons ev evs ih =>
    intro e rm flag h
    have hstep : processEntity ⟨[e], rm, flag⟩ eid0 c
        = ⟨[{ e with replicate := some replicateInterest
                     zeroChildren := e.zeroChildren + 1 }],
           (rm.add_client c c).add_entity eid0 c, true⟩ := by
      rw [processEntity_spec]
      simp [h]
    rw [List.foldl_cons, hstep]
    rcases ih { e with replicate := some replicateInterest
                       zeroChildren := e.zeroChildren + 1 }
        ((rm.add_client c c).add_entity eid0 c) true h with
      ⟨e', rm', fl', heq, hz, hca, hcc, hee⟩
    refine ⟨e', rm', fl', heq, ?_, hca, hcc, hee⟩
    rw [hz, List.length_cons]
    show e.zeroChildren + 1 + evs.length = e.zeroChildren + (evs.length + 1)
    omega

/-- C10: child attachment is not idempotent — one `add_replicate` run over
`n` pending connect events gives each matching payload+carrier entity
exactly `n` additional `ComponentA(0)` children (its id, payload and carrier
are preserved, so later events keep matching it). -/
theorem children_accumulate_per_event (evs : List Nat) (e : SEntity)
    (rm : RoomManager) (flag : Bool) (a c : Nat)
    (ha : e.componentA = some a) (hc : e.carrierId = some c) :
    ∃ e', (add_replicate ⟨[e], rm, flag⟩ evs).entities = [e']
      ∧ e'.zeroChildren = e.zeroChildren + evs.length
      ∧ e'.componentA = some a ∧ e'.carrierId = some c ∧ e'.eid = e.eid := by
  have hq : queryAll [e] = [(e.eid, c)] := queryAll_singleton e a c ha hc
  have hrw : add_replicate ⟨[e], rm, flag⟩ evs
      = evs.foldl (fun acc _ => processEntity acc e.eid c) ⟨[e], rm, flag⟩ := by
    simp only [add_replicate, hq, List.foldl_cons, List.foldl_nil]
  rw [hrw]
  rcases foldl_process_singleton e.eid c evs e rm flag rfl with
    ⟨e', rm', fl', heq, hz, hca, hcc, hee⟩
  exact ⟨e', by rw [heq], hz, by rw [hca, ha], by rw [hcc, hc], hee⟩

/-- C10 (witness): three connect events give the matching entity three
`ComponentA(0)` children. -/
theorem children_accumulate_per_event_witness :
    ∃ e', (add_replicate ⟨[{ eid := 0, componentA := some 2, carrierId := some 5,
                             replicate := none, name := none, zeroChildren := 0 }],
                          RoomManager.empty, false⟩ [7, 8, 9]).entities = [e']
      ∧ e'.zeroChildren = 0 + 3
      ∧ e'.componentA = some 2 ∧ e'.carrierId = some 5 ∧ e'.eid = 0 :=
  children_accumulate_per_event [7, 8, 9]
    { eid := 0, componentA := some 2, carrierId := some 5,
      replicate := none, name := none, zeroChildren := 0 }
    RoomManager.empty false 2 5 rfl rfl

/-- C5 (amended): when serialization of the snapshot fails (some present
component kind missing from the type registry), the `.unwrap()` makes the
whole `create_save_scene` system run panic — the failure is fatal to that
tick's control flow rather than logged and contained; under the app's
actual registry (which registers `ComponentA`, `CarrierId` and `Name`)
serialization succeeds. -/
theorem serialize_failure_panics_tick (live : ServerState)
    (registry : List String) (cid : Nat)
    (h : serializeScene registry (sceneWorldFor cid) = none) :
    (create_save_scene live registry [cid]).2 = TickOutcome.panicked
    ∧ (serializeScene appTypeRegistry (sceneWorldFor cid)).isSome = true := by
  constructor
  · simp [create_save_scene, List.mapM, List.mapM.loop, h]
  · simp [serializeScene, sceneWorldFor, bundleKinds, appTypeRegistry]

/-- C5 (witness): with an empty type registry, serialization fails and the
system run panics. -/
theorem serialize_failure_panics_tick_witness :
    serializeScene [] (sceneWorldFor 0) = none
    ∧ (create_save_scene ⟨[], RoomManager.empty, false⟩ [] [0]).2
        = TickOutcome.panicked :=
  ⟨rfl, (serialize_failure_panics_tick ⟨[], RoomManager.empty, false⟩ [] 0 rfl).1⟩

/-- C5 (counterexample): a concrete failing serialization (empty registry)
is fatal to the system run — the tick outcome is a panic, contradicting
"logged, aborts only the single snapshot operation, never fatal". -/
theorem serialize_failure_is_fatal :
    serializeScene [] (sceneWorldFor 3) = none
    ∧ (create_save_scene ⟨[], RoomManager.empty, true⟩ [] [3]).2
        = TickOutcome.panicked
    ∧ TickOutcome.panicked ≠ TickOutcome.ok [] := by
  refine ⟨rfl, rfl, ?_⟩
  decide

/-- Decoding inverts the length-prefixed number encoding. -/
theorem decNat_encNat (n : Nat) (t : List Nat) :
    decNat (encNat n ++ t) = some (n, t) := by
  show (if (Nat.digits 10 n).length ≤ (Nat.digits 10 n ++ t).length then
      some (Nat.ofDigits 10
              (List.take (Nat.digits 10 n).length (Nat.digits 10 n ++ t)),
            List.drop (Nat.digits 10 n).length (Nat.digits 10 n ++ t))
    else none) = some (n, t)
  rw [if_pos (by rw [List.length_append]; exact Nat.le_add_right _ _)]
  rw [List.take_left, List.drop_left, Nat.ofDigits_digits]

/-- Decoding inverts the string encoding. -/
theorem decStr_encStr (s : String) (t : List Nat) :
    decStr (encStr s ++ t) = some (s, t) := by
  have hlen : (s.data.map Char.toNat).length = s.data.length :=
    List.length_map _ _
  unfold encStr decStr
  rw [List.append_assoc, decNat_encNat, Option.some_bind]
  rw [if_pos (by rw [List.length_append, hlen]; exact Nat.le_add_right _ _)]
  rw [List.take_left' hlen, List.drop_left' hlen, List.map_map]
  simp [Function.comp_def, Char.ofNat_toNat]

/-- Decoding inverts the optional-field encoding, given that the element
decoder inverts the element encoder. -/
theorem decOpt_encOpt {α : Type _} (enc : α → List Nat)
    (dec : List Nat → Option (α × List Nat))
    (h : ∀ a t, dec (enc a ++ t) = some (a, t)) (o : Option α) (t : List Nat) :
    decOpt dec (encOpt enc o ++ t) = some (o, t) := by
  cases o with
  | none => rfl
  | some a =>
    show (dec (enc a ++ t)).bind (fun ar => some (some ar.1, ar.2))
      = some (some a, t)
    rw [h, Option.some_bind]

/-- Decoding inverts the bundle encoding. -/
theorem decBundle_encBundle (b : Bundle) (t : List Nat) :
    decBundle (encBundle b ++ t) = some (b, t) := by
  unfold encBundle decBundle
  rw [List.append_assoc, decOpt_encOpt encNat decNat decNat_encNat,
    Option.some_bind, List.append_assoc,
    decOpt_encOpt encNat decNat decNat_encNat, Option.some_bind,
    decOpt_encOpt encStr decStr decStr_encStr, Option.some_bind]

/-- Decoding inverts the encoding of a bundle sequence. -/
theorem decBundles_encBundles (l : List Bundle) (t : List Nat) :
    decBundles l.length (l.flatMap encBundle ++ t) = some (l, t) := by
  induction l with
  | nil => rfl
  | cons b bs ih =>
    show decBundles (bs.length + 1) ((encBundle b ++ bs.flatMap encBundle) ++ t)
      = some (b :: bs, t)
    unfold decBundles
    rw [List.append_assoc, decBundle_encBundle, Option.some_bind, ih,
      Option.some_bind]

/-- Decoding inverts scene serialization whenever serialization succeeds. -/
theorem decodeScene_serializeScene (registry : List String)
    (scene : List Bundle) (bs : List Nat)
    (h : serializeScene registry scene = some bs) :
    decodeScene bs = some scene := by
  unfold serializeScene at h
  by_cases hc : (scene.flatMap bundleKinds).all (fun k => registry.contains k)
  · rw [if_pos hc] at h
    cases h
    have hdec := decBundles_encBundles scene []
    rw [List.append_nil] at hdec
    show (decBundles scene.length (scene.flatMap encBundle)).bind
        (fun lr => if lr.2 = [] then some lr.1 else none) = some scene
    rw [hdec, Option.some_bind, if_pos rfl]
  · rw [if_neg hc] at h
    exact absurd h (by simp)

/-- C8: snapshot round-trip — for any buildable snapshot (the scene world
built for a connect event of any client id), serializing under the app's
registry succeeds, persisting then loading the bytes yields back exactly the
snapshot's bundles, and instantiating them produces entities whose component
values (payload, carrier id, label) equal the snapshot's. -/
theorem snapshot_roundtrip (cid base : Nat) :
    ∃ bs, serializeScene appTypeRegistry (sceneWorldFor cid) = some bs
      ∧ load (persist bs) = LoadResult.ok (sceneWorldFor cid)
      ∧ (instantiate (sceneWorldFor cid) base).map SEntity.toBundle
          = sceneWorldFor cid := by
  have hser : (serializeScene appTypeRegistry (sceneWorldFor cid)).isSome = true := by
    simp [serializeScene, sceneWorldFor, bundleKinds, appTypeRegistry]
  rcases hbs : serializeScene appTypeRegistry (sceneWorldFor cid) with _ | bs
  · rw [hbs] at hser; simp at hser
  · refine ⟨bs, rfl, ?_, ?_⟩
    · show (match decodeScene bs with
        | none => LoadResult.decodeError
        | some scene => LoadResult.ok scene) = LoadResult.ok (sceneWorldFor cid)
      rw [decodeScene_serializeScene appTypeRegistry (sceneWorldFor cid) bs hbs]
    · rfl

end MreScene
